import Mathlib

/-!
Verification of the loopgate HITL broker against its specification.

The definitions below are a shallow embedding of the Go source:
`internal/types` (data model), the in-memory storage adapter
(`InMemoryStorageAdapter`), the HTTP HITL handler (`HITLHandler`),
the Telegram bot ingress handlers (`Bot.handleReply`,
`Bot.handleCallbackQuery`, `Bot.handleTextMessage`), the router
(`Router.parseApproval`, `Router.cleanupExpiredRequests`) and the MCP
JSON-RPC dispatcher (`Protocol.HandleRequest`).  Go maps are modelled as
association lists where an insert overrides any previous binding for the
key; `time.Now()` is passed explicitly as a natural-number clock; Go's
`error` returns become `Except String`.
-/

namespace Loopgate

/-- Request status constants from `internal/types/types.go`. -/
inductive RequestStatus
  | pending
  | completed
  | timeout
  | canceled
deriving DecidableEq, Repr

/-- `types.HITLRequest` (fields relevant to the claims; `metadata`,
`callback_url` and the Telegram message id are omitted as no claim
mentions them). -/
structure HITLRequest where
  id : String
  sessionId : String
  clientId : String
  message : String
  options : List String
  timeoutSeconds : Nat
  status : RequestStatus
  response : String
  approved : Bool
  createdAt : Nat
  respondedAt : Option Nat
deriving DecidableEq, Repr

/-- `types.Session`. -/
structure Session where
  id : String
  clientId : String
  telegramId : Int
  active : Bool
  createdAt : Nat
deriving DecidableEq, Repr

/-- First-match lookup in an association list (Go map read). -/
def lookupA {α : Type} (k : String) : List (String × α) → Option α
  | [] => none
  | (k', v) :: rest => if k' = k then some v else lookupA k rest

/-- Go `delete(m, k)`: remove every binding of `k`. -/
def deleteA {α : Type} (k : String) : List (String × α) → List (String × α)
  | [] => []
  | (k', v) :: rest =>
      if k' = k then deleteA k rest else (k', v) :: deleteA k rest

/-- Go map write `m[k] = v`: overrides any previous binding. -/
def insertA {α : Type} (k : String) (v : α) (m : List (String × α)) :
    List (String × α) :=
  (k, v) :: deleteA k m

/-- In-place update of the value bound to `k` (mutation through a Go
pointer held in the map leaves the key set unchanged). -/
def updateA {α : Type} (k : String) (f : α → α) :
    List (String × α) → List (String × α)
  | [] => []
  | (k', v) :: rest =>
      if k' = k then (k', f v) :: updateA k f rest
      else (k', v) :: updateA k f rest

/-- State of `storage.InMemoryStorageAdapter`: sessions and requests keyed
by id, plus the `clientToTelegram` routing map. -/
structure InMemoryStorageAdapter where
  sessions : List (String × Session)
  requests : List (String × HITLRequest)
  clientToTelegram : List (String × Int)
deriving DecidableEq, Repr

namespace InMemoryStorageAdapter

/-- `NewInMemoryStorageAdapter`. -/
def empty : InMemoryStorageAdapter := ⟨[], [], []⟩

/-- `RegisterSession`: rejects a duplicate session id, otherwise stores an
active session and overwrites `clientToTelegram[clientID]`. -/
def registerSession (s : InMemoryStorageAdapter)
    (sessionID clientID : String) (telegramID : Int) (now : Nat) :
    Except String Unit × InMemoryStorageAdapter :=
  match lookupA sessionID s.sessions with
  | some _ => (Except.error "session already exists", s)
  | none =>
      let session : Session :=
        { id := sessionID, clientId := clientID, telegramId := telegramID
          active := true, createdAt := now }
      (Except.ok (),
        { s with
          sessions := insertA sessionID session s.sessions
          clientToTelegram := insertA clientID telegramID s.clientToTelegram })

/-- `DeactivateSession`: errors when the session is unknown, otherwise
sets `Active := false` and deletes the client's routing entry. -/
def deactivateSession (s : InMemoryStorageAdapter) (sessionID : String) :
    Except String Unit × InMemoryStorageAdapter :=
  match lookupA sessionID s.sessions with
  | none => (Except.error "session not found", s)
  | some session =>
      (Except.ok (),
        { s with
          sessions :=
            updateA sessionID (fun ss => { ss with active := false }) s.sessions
          clientToTelegram := deleteA session.clientId s.clientToTelegram })

/-- `GetSession`. -/
def getSession (s : InMemoryStorageAdapter) (sessionID : String) :
    Except String Session :=
  match lookupA sessionID s.sessions with
  | none => Except.error "session not found"
  | some session => Except.ok session

/-- `GetTelegramID`: reads the `clientToTelegram` map. -/
def getTelegramID (s : InMemoryStorageAdapter) (clientID : String) :
    Except String Int :=
  match lookupA clientID s.clientToTelegram with
  | none => Except.error "client not found"
  | some telegramID => Except.ok telegramID

/-- `StoreRequest`: rejects a duplicate request id. -/
def storeRequest (s : InMemoryStorageAdapter) (request : HITLRequest) :
    Except String Unit × InMemoryStorageAdapter :=
  match lookupA request.id s.requests with
  | some _ => (Except.error "request already exists", s)
  | none =>
      (Except.ok (), { s with requests := insertA request.id request s.requests })

/-- `GetRequest`. -/
def getRequest (s : InMemoryStorageAdapter) (requestID : String) :
    Except String HITLRequest :=
  match lookupA requestID s.requests with
  | none => Except.error "request not found"
  | some request => Except.ok request

/-- `UpdateRequestResponse`: errors only when the request id is unknown;
otherwise it unconditionally overwrites `response`, `approved`, sets
`Status := completed` and `RespondedAt := now` — the current status is
never inspected. -/
def updateRequestResponse (s : InMemoryStorageAdapter)
    (requestID response : String) (approved : Bool) (now : Nat) :
    Except String Unit × InMemoryStorageAdapter :=
  match lookupA requestID s.requests with
  | none => (Except.error "request not found", s)
  | some _ =>
      (Except.ok (),
        { s with
          requests :=
            updateA requestID
              (fun r =>
                { r with
                  response := response, approved := approved
                  status := RequestStatus.completed, respondedAt := some now })
              s.requests })

/-- `GetPendingRequests`. -/
def getPendingRequests (s : InMemoryStorageAdapter) : List HITLRequest :=
  (s.requests.filter (fun p => p.2.status = RequestStatus.pending)).map
    (fun p => p.2)

/-- `CancelRequest`: errors only when the request id is unknown; otherwise
it unconditionally sets `Status := canceled` without inspecting the
current status. -/
def cancelRequest (s : InMemoryStorageAdapter) (requestID : String) :
    Except String Unit × InMemoryStorageAdapter :=
  match lookupA requestID s.requests with
  | none => (Except.error "request not found", s)
  | some _ =>
      (Except.ok (),
        { s with
          requests :=
            updateA requestID
              (fun r => { r with status := RequestStatus.canceled })
              s.requests })

/-- `GetActiveSessions`. -/
def getActiveSessions (s : InMemoryStorageAdapter) : List Session :=
  (s.sessions.filter (fun p => p.2.active)).map (fun p => p.2)

end InMemoryStorageAdapter

/-- Character-list prefix test. -/
def isPrefixList : List Char → List Char → Bool
  | [], _ => true
  | _ :: _, [] => false
  | a :: as, b :: bs => a == b && isPrefixList as bs

/-- If `sep` is a prefix of `s`, the remainder of `s` past it. -/
def dropPrefixList : List Char → List Char → Option (List Char)
  | [], s => some s
  | _ :: _, [] => none
  | a :: as, b :: bs => if a = b then dropPrefixList as bs else none

/-- Fuel-indexed splitter over character lists (the fuel is the input
length, enough for a non-empty separator). -/
def splitOnAuxL (sep : List Char) : Nat → List Char → List Char → List (List Char)
  | 0, s, acc => [acc.reverse ++ s]
  | Nat.succ fuel, s, acc =>
      match s with
      | [] => [acc.reverse]
      | c :: rest =>
          match dropPrefixList sep s with
          | some rem => acc.reverse :: splitOnAuxL sep fuel rem []
          | none => splitOnAuxL sep fuel rest (c :: acc)

/-- Go `strings.Split` (the semantics of `String.splitOn`), written with
structural recursion so that concrete inputs evaluate in the kernel. -/
def splitOnStr (s sep : String) : List String :=
  if sep.data.isEmpty then [s]
  else (splitOnAuxL sep.data (s.data.length + 1) s.data []).map String.mk

/-- Go `strings.HasPrefix`. -/
def strHasPrefixStr (pre s : String) : Bool :=
  isPrefixList pre.data s.data

/-- Go `strings.ToLower` (character-wise). -/
def strToLower (s : String) : String :=
  String.mk (s.data.map Char.toLower)

/-- Go `strings.TrimSpace`. -/
def strTrim (s : String) : String :=
  String.mk
    (((s.data.dropWhile Char.isWhitespace).reverse.dropWhile
      Char.isWhitespace).reverse)

/-- Go `strings.Contains` for a non-empty needle: `sub` occurs in `s` iff
splitting on it yields more than one piece. -/
def strContains (s sub : String) : Bool :=
  (splitOnStr s sub).length ≥ 2

/-- `Router.parseApproval` from `internal/router/router.go`: the incoming
text (passed through the identity `fmt.Sprintf`) is compared for exact
equality — neither lowercased nor trimmed — against the seven listed
entries. -/
def parseApproval (message : String) : Bool :=
  ["yes", "approve", "ok", "confirm", "accept", "✅", "👍"].any
    (fun approval => message == approval)

/-- The approval computation of the webhook bot's `handleTextMessage`:
`strings.ToLower(text) == "yes" || strings.ToLower(text) == "approve"`. -/
def handleTextMessageApproved (text : String) : Bool :=
  (strToLower text == "yes") || (strToLower text == "approve")

/-- Loop body of `Bot.extractRequestID`. -/
def extractRequestIDGo : List String → String
  | [] => ""
  | line :: rest =>
      if strContains line "Request ID:" then
        let parts := splitOnStr line "\x60"
        if parts.length ≥ 2 then parts.getD 1 "" else extractRequestIDGo rest
      else extractRequestIDGo rest

/-- `Bot.extractRequestID`: scan the quoted message line by line; on the
first line containing `Request ID:` whose backtick split has at least two
pieces, return the piece between the first pair of backticks. -/
def extractRequestID (text : String) : String :=
  extractRequestIDGo (splitOnStr text "\n")

/-- Result of `Bot.handleReply`. -/
inductive ReplyOutcome
  | ignored
  | errorSent (msg : String)
  | recorded
deriving DecidableEq, Repr

/-- `Bot.handleReply`: correlate a free-text Telegram reply with its
request via the quoted message text, then call
`UpdateRequestResponse(requestID, message.Text, true)` — the `approved`
argument is the literal `true`, independent of the reply text. -/
def handleReply (st : InMemoryStorageAdapter) (replyToText text : String)
    (now : Nat) : ReplyOutcome × InMemoryStorageAdapter :=
  if ¬ strContains replyToText "Request ID:" then (ReplyOutcome.ignored, st)
  else
    let requestID := extractRequestID replyToText
    if requestID = "" then (ReplyOutcome.ignored, st)
    else
      match st.updateRequestResponse requestID text true now with
      | (Except.error e, st') => (ReplyOutcome.errorSent e, st')
      | (Except.ok _, st') => (ReplyOutcome.recorded, st')

/-- Digit-string value for `strconv.Atoi` (none on empty or non-digit). -/
def digitsVal (cs : List Char) : Option Nat :=
  if cs.isEmpty then none
  else
    cs.foldl
      (fun acc c =>
        match acc with
        | none => none
        | some n => if c.isDigit then some (n * 10 + (c.toNat - 48)) else none)
      (some 0)

/-- Go `strconv.Atoi` (overflow ignored: all inputs of interest are small).
Accepts an optional sign followed by at least one digit. -/
def atoi (s : String) : Option Int :=
  match s.toList with
  | '-' :: rest => (digitsVal rest).map (fun n => -(n : Int))
  | '+' :: rest => (digitsVal rest).map (fun n => (n : Int))
  | cs => (digitsVal cs).map (fun n => (n : Int))

/-- The parsing portion of `Bot.handleCallbackQuery`: require the
`response:` prefix, split on `:` into exactly three parts, and parse the
third with `strconv.Atoi`. -/
def parseCallbackData (data : String) : Option (String × Int) :=
  if strHasPrefixStr "response:" data then
    let parts := splitOnStr data ":"
    if parts.length = 3 then
      match atoi (parts.getD 2 "") with
      | none => none
      | some optionIndex => some (parts.getD 1 "", optionIndex)
    else none
  else none

/-- The deny-set test of `Bot.handleCallbackQuery`:
`approved := lower != "cancel" && lower != "reject" && lower != "deny"`.
(`"no"` is not among the compared strings.) -/
def choiceApproved (selectedOption : String) : Bool :=
  (strToLower selectedOption != "cancel") &&
  (strToLower selectedOption != "reject") &&
  (strToLower selectedOption != "deny")

/-- List indexing by a Go `int`: defined exactly when `0 ≤ i < length`.
Outside that range the Go expression `request.Options[optionIndex]`
panics at runtime. -/
def safeIndex (xs : List String) (i : Int) : Option String :=
  if h : 0 ≤ i ∧ i < (xs.length : Int) then
    some (xs.get ⟨i.toNat, by omega⟩)
  else none

/-- Result of `Bot.handleCallbackQuery`.  `outOfBounds` marks the inputs
on which the Go source indexes `request.Options` outside its bounds and
panics. -/
inductive CallbackOutcome
  | ignored
  | answered (text : String)
  | outOfBounds (idx : Int)
  | recorded (selectedOption : String) (approved : Bool)
deriving DecidableEq, Repr

/-- The post-parse portion of `Bot.handleCallbackQuery`: look the request
up, reject an index with `optionIndex >= len(request.Options)` (the only
bounds check in the source), read the selected option, compute `approved`
and store the response. -/
def deliverCallback (st : InMemoryStorageAdapter) (requestID : String)
    (optionIndex : Int) (now : Nat) :
    CallbackOutcome × InMemoryStorageAdapter :=
  match st.getRequest requestID with
  | Except.error _ => (CallbackOutcome.answered "Request not found", st)
  | Except.ok request =>
      if optionIndex ≥ (request.options.length : Int) then
        (CallbackOutcome.answered "Invalid option", st)
      else
        match safeIndex request.options optionIndex with
        | none => (CallbackOutcome.outOfBounds optionIndex, st)
        | some selectedOption =>
            let approved := choiceApproved selectedOption
            match st.updateRequestResponse requestID selectedOption approved now with
            | (Except.error _, st') =>
                (CallbackOutcome.answered "Error updating request", st')
            | (Except.ok _, st') =>
                (CallbackOutcome.recorded selectedOption approved, st')

/-- `Bot.handleCallbackQuery` = parse, then deliver. -/
def handleCallbackQuery (st : InMemoryStorageAdapter) (data : String)
    (now : Nat) : CallbackOutcome × InMemoryStorageAdapter :=
  match parseCallbackData data with
  | none => (CallbackOutcome.ignored, st)
  | some (requestID, optionIndex) => deliverCallback st requestID optionIndex now

/-- Decoded body of `POST /hitl/request`. -/
structure SubmitInput where
  sessionId : String
  clientId : String
  message : String
  options : List String
  timeoutSeconds : Nat
deriving DecidableEq, Repr

/-- Outcome of `HITLHandler.SubmitRequest`, tagged by the HTTP reply the
handler writes. -/
inductive SubmitOutcome
  | badRequest (msg : String)
  | notFoundResp (msg : String)
  | internalError (msg : String)
  | okResponse (requestId : String) (status : RequestStatus)
deriving DecidableEq, Repr

/-- HTTP status code written for each `SubmitRequest` outcome. -/
def httpStatusOf : SubmitOutcome → Nat
  | SubmitOutcome.badRequest _ => 400
  | SubmitOutcome.notFoundResp _ => 404
  | SubmitOutcome.internalError _ => 500
  | SubmitOutcome.okResponse _ _ => 200

/-- `HITLHandler.SubmitRequest` (internal/handlers/hitl.go): validate the
fields, mint the request (status pending, default timeout 300), look the
session up (404 when missing, 400 `Session is not active` when inactive),
store the request (the source discards `StoreRequest`'s error), then send
to Telegram; a send failure yields HTTP 500 with no rollback of the
stored request. -/
def submitRequest (st : InMemoryStorageAdapter) (input : SubmitInput)
    (newID : String) (now : Nat) (telegramSendOk : Bool) :
    SubmitOutcome × InMemoryStorageAdapter :=
  if input.sessionId = "" ∨ input.clientId = "" ∨ input.message = "" then
    (SubmitOutcome.badRequest "Missing required fields", st)
  else
    let req : HITLRequest :=
      { id := newID, sessionId := input.sessionId, clientId := input.clientId
        message := input.message, options := input.options
        timeoutSeconds := if input.timeoutSeconds = 0 then 300 else input.timeoutSeconds
        status := RequestStatus.pending, response := "", approved := false
        createdAt := now, respondedAt := none }
    match st.getSession input.sessionId with
    | Except.error _ => (SubmitOutcome.notFoundResp "Session not found", st)
    | Except.ok session =>
        if ¬ session.active then
          (SubmitOutcome.badRequest "Session is not active", st)
        else
          let (_, st1) := st.storeRequest req
          if telegramSendOk then
            (SubmitOutcome.okResponse newID RequestStatus.pending, st1)
          else
            (SubmitOutcome.internalError "Failed to send request to Telegram", st1)

/-- Body of the `200` reply of `HITLHandler.PollRequest`. -/
structure PollResponse where
  requestId : String
  status : RequestStatus
  response : String
  approved : Bool
  completed : Bool
deriving DecidableEq, Repr

/-- Outcome of `GET /hitl/poll`. -/
inductive PollOutcome
  | notFoundResp
  | ok (resp : PollResponse)
deriving DecidableEq, Repr

/-- `HITLHandler.PollRequest`: a pure read of the stored request. -/
def pollRequest (st : InMemoryStorageAdapter) (requestID : String) :
    PollOutcome :=
  match st.getRequest requestID with
  | Except.error _ => PollOutcome.notFoundResp
  | Except.ok request =>
      PollOutcome.ok
        { requestId := requestID
          status := request.status
          response := request.response
          approved := request.approved
          completed :=
            decide (request.status = RequestStatus.completed) ||
            decide (request.status = RequestStatus.timeout) ||
            decide (request.status = RequestStatus.canceled) }

/-- An entry of `Router.pendingRequests`: the request plus the fixed
expiry deadline recorded at routing time. -/
structure PendingEntry where
  request : HITLRequest
  timeoutAt : Nat
deriving DecidableEq, Repr

/-- In-memory state of `router.Router` (the channel map). -/
structure RouterState where
  pendingRequests : List (String × PendingEntry)
deriving DecidableEq, Repr

/-- `Router.RouteHITLRequest` sets every entry's deadline to
`time.Now().Add(5 * time.Minute)` — a constant 300 seconds, independent of
the request's `timeout_seconds` field. -/
def routeDeadline (now : Nat) : Nat := now + 300

/-- One tick of `Router.cleanupExpiredRequests`: drop every pending entry
whose deadline lies strictly in the past (`now.After(req.Timeout)`).  The
storage adapter is not an input: the loop never touches stored request
state, it only closes channels and deletes map entries. -/
def cleanupTick (now : Nat) (rs : RouterState) : RouterState :=
  { pendingRequests :=
      rs.pendingRequests.filter (fun p => ¬ now > p.2.timeoutAt) }

/-- The mutating operations of the storage adapter, for invariant
reasoning over arbitrary operation sequences. -/
inductive StoreOp
  | register (sessionID clientID : String) (telegramID : Int) (now : Nat)
  | deactivate (sessionID : String)
  | store (request : HITLRequest)
  | update (requestID response : String) (approved : Bool) (now : Nat)
  | cancel (requestID : String)
deriving DecidableEq, Repr

/-- Apply one storage operation (dropping the returned error). -/
def applyOp (st : InMemoryStorageAdapter) : StoreOp → InMemoryStorageAdapter
  | StoreOp.register sessionID clientID telegramID now =>
      (st.registerSession sessionID clientID telegramID now).2
  | StoreOp.deactivate sessionID => (st.deactivateSession sessionID).2
  | StoreOp.store request => (st.storeRequest request).2
  | StoreOp.update requestID response approved now =>
      (st.updateRequestResponse requestID response approved now).2
  | StoreOp.cancel requestID => (st.cancelRequest requestID).2

/-- Apply a sequence of storage operations left to right. -/
def applyOps (st : InMemoryStorageAdapter) (ops : List StoreOp) :
    InMemoryStorageAdapter :=
  ops.foldl applyOp st

/-- A JSON value, the shape `encoding/json` decodes an `interface{}`
into.  `Json.null` also stands for an absent field (a nil interface). -/
inductive Json
  | null
  | boolean (b : Bool)
  | number (n : Int)
  | str (s : String)
  | arr (elems : List Json)
  | obj (fields : List (String × Json))
deriving Repr

/-- Go's type assertion `.(map[string]interface{})`. -/
def Json.asObj : Json → Option (List (String × Json))
  | Json.obj fields => some fields
  | _ => none

/-- Go's type assertion `.(string)`. -/
def Json.asString : Json → Option String
  | Json.str s => some s
  | _ => none

/-- `types.MCPRequest` after JSON decoding (`id` and `params` are
`interface{}`). -/
structure MCPReq where
  method : String
  params : Json
  id : Json

/-- `types.MCPError`. -/
structure MCPErr where
  code : Int
  message : String
deriving DecidableEq, Repr

/-- An MCP JSON-RPC reply: either a success envelope (the result body is
abstracted to the name of the handler that produced it) or an error
envelope. -/
inductive MCPResp
  | success (id : Json) (handler : String)
  | failure (id : Json) (e : MCPErr)

namespace Protocol

/-- `Protocol.handleToolsCall`: a `params` that is not a JSON object (or
is absent) fails the `map[string]interface{}` assertion → −32602; a
missing or non-string `name` → −32602; an unknown tool → −32601;
otherwise dispatch to the tool handler. -/
def handleToolsCall (req : MCPReq) : MCPResp :=
  match req.params.asObj with
  | none => MCPResp.failure req.id ⟨-32602, "Invalid params"⟩
  | some fields =>
      match (lookupA "name" fields).bind Json.asString with
      | none => MCPResp.failure req.id ⟨-32602, "Missing tool name"⟩
      | some toolName =>
          match toolName with
          | "request_human_input" => MCPResp.success req.id "request_human_input"
          | "check_request_status" => MCPResp.success req.id "check_request_status"
          | "list_pending_requests" => MCPResp.success req.id "list_pending_requests"
          | "cancel_request" => MCPResp.success req.id "cancel_request"
          | _ => MCPResp.failure req.id ⟨-32601, "Tool not found"⟩

/-- `Protocol.HandleRequest` (internal/mcp/protocol.go): `none` models an
envelope `json.Unmarshal` rejects → −32700 with a null id; then dispatch
on the method string, with −32601 for anything outside the three-case
switch. -/
def handleRequest : Option MCPReq → MCPResp
  | none => MCPResp.failure Json.null ⟨-32700, "Parse error"⟩
  | some req =>
      match req.method with
      | "initialize" => MCPResp.success req.id "initialize"
      | "tools/list" => MCPResp.success req.id "tools_list"
      | "tools/call" => handleToolsCall req
      | _ => MCPResp.failure req.id ⟨-32601, "Method not found"⟩

end Protocol

/-- Modelled from the spec (§4.4 Deliver reply), for comparison with the
code: `approved := true` iff the reply text matches, case-insensitively
and trimmed, an entry of the approve-set
{yes, approve, ok, confirm, accept}. -/
def specFreeTextApproved (text : String) : Bool :=
  ["yes", "approve", "ok", "confirm", "accept"].any
    (fun entry => strToLower (strTrim text) == entry)

/-- Modelled from the spec (§4.4 Deliver reply), for comparison with the
code: for a choice selection, `approved := true` unless the option text
matches, case-insensitively, an entry of the deny-set
{cancel, reject, deny, no}. -/
def specChoiceApproved (optionText : String) : Bool :=
  ! (["cancel", "reject", "deny", "no"].any
      (fun entry => strToLower optionText == entry))

/-- Modelled from the spec (§4.1 Resolve), for comparison with the code:
the human address of the oldest-created active session bound to the
client. -/
def specOldestActiveTelegram (st : InMemoryStorageAdapter)
    (clientID : String) : Option Int :=
  let active := st.sessions.filter
    (fun p => p.2.active && p.2.clientId == clientID)
  match active with
  | [] => none
  | first :: rest =>
      some ((rest.foldl
        (fun best p => if p.2.createdAt < best.2.createdAt then p else best)
        first).2.telegramId)

section AssocLemmas

variable {α : Type}

theorem lookupA_deleteA (k k' : String) (m : List (String × α)) :
    lookupA k (deleteA k' m) =
      if k' = k then none else lookupA k m := by
  induction m with
  | nil => by_cases h : k' = k <;> simp [deleteA, lookupA, h]
  | cons hd tl ih =>
      obtain ⟨a, b⟩ := hd
      by_cases hk : a = k
      · subst hk
        by_cases hk' : a = k'
        · subst hk'
          simp only [deleteA, lookupA, if_pos rfl]
          simpa using ih
        · simp [deleteA, lookupA, hk', Ne.symm hk']
      · by_cases hk' : a = k'
        · subst hk'
          simp [deleteA, lookupA, hk, ih]
        · simp [deleteA, lookupA, hk, hk', ih]

theorem lookupA_insertA (k k' : String) (v : α) (m : List (String × α)) :
    lookupA k (insertA k' v m) =
      if k' = k then some v else lookupA k m := by
  by_cases h : k' = k <;>
    simp [insertA, lookupA, h, lookupA_deleteA]

theorem lookupA_updateA (k k' : String) (f : α → α) (m : List (String × α)) :
    lookupA k (updateA k' f m) =
      if k' = k then Option.map f (lookupA k m) else lookupA k m := by
  induction m with
  | nil => by_cases h : k' = k <;> simp [updateA, lookupA, h]
  | cons hd tl ih =>
      obtain ⟨a, b⟩ := hd
      by_cases hk : a = k
      · subst hk
        by_cases hk' : a = k'
        · subst hk'
          simp [updateA, lookupA]
        · simp [updateA, lookupA, hk', Ne.symm hk']
      · by_cases hk' : a = k'
        · subst hk'
          simp [updateA, lookupA, hk, ih]
        · simp [updateA, lookupA, hk, hk', ih]

theorem deleteA_deleteA (k : String) (m : List (String × α)) :
    deleteA k (deleteA k m) = deleteA k m := by
  induction m with
  | nil => rfl
  | cons hd tl ih =>
      obtain ⟨a, b⟩ := hd
      by_cases hk : a = k <;> simp [deleteA, hk, ih]

theorem updateA_updateA (k : String) (f g : α → α) (m : List (String × α)) :
    updateA k f (updateA k g m) = updateA k (fun a => f (g a)) m := by
  induction m with
  | nil => rfl
  | cons hd tl ih =>
      obtain ⟨a, b⟩ := hd
      by_cases hk : a = k <;> simp [updateA, hk, ih]

end AssocLemmas

/-- `getRequest` success inverts to a map lookup. -/
theorem getRequest_ok_lookup (st : InMemoryStorageAdapter) (rid : String)
    (req : HITLRequest) (h : st.getRequest rid = Except.ok req) :
    lookupA rid st.requests = some req := by
  unfold InMemoryStorageAdapter.getRequest at h
  cases hx : lookupA rid st.requests with
  | none => rw [hx] at h; cases h
  | some r => rw [hx] at h; simp only [Except.ok.injEq] at h; rw [h]

/-- A completed request stored in the adapter: fixture for the terminal
transition claims. -/
def terminalReq : HITLRequest :=
  { id := "r1", sessionId := "s1", clientId := "c1", message := "Deploy?"
    options := [], timeoutSeconds := 300
    status := RequestStatus.completed, response := "done", approved := true
    createdAt := 0, respondedAt := some 5 }

/-- A store holding exactly `terminalReq`. -/
def terminalStore : InMemoryStorageAdapter :=
  { sessions := [], requests := [("r1", terminalReq)], clientToTelegram := [] }

/-- C1 (amended): in the in-memory adapter, `UpdateRequestResponse` and
`CancelRequest` succeed for every existing request regardless of its
current status — there is no `AlreadyTerminal` outcome.  `Complete`
overwrites `response`, `approved`, `status` and `responded_at`, and
`Cancel` overwrites `status`, even when the stored status is already
terminal. -/
theorem updateAndCancel_ignore_terminal_status (st : InMemoryStorageAdapter)
    (rid resp : String) (app : Bool) (now : Nat) (req : HITLRequest)
    (h : st.getRequest rid = Except.ok req) :
    (st.updateRequestResponse rid resp app now).1 = Except.ok () ∧
    ((st.updateRequestResponse rid resp app now).2.getRequest rid =
      Except.ok { req with
                  response := resp, approved := app,
                  status := RequestStatus.completed, respondedAt := some now }) ∧
    (st.cancelRequest rid).1 = Except.ok () ∧
    ((st.cancelRequest rid).2.getRequest rid =
      Except.ok { req with status := RequestStatus.canceled }) := by
  have hl := getRequest_ok_lookup st rid req h
  unfold InMemoryStorageAdapter.updateRequestResponse
    InMemoryStorageAdapter.cancelRequest InMemoryStorageAdapter.getRequest
  rw [hl]
  simp [lookupA_updateA, hl]

/-- C1 witness: the amended behaviour at a concrete terminal request. -/
theorem updateAndCancel_ignore_terminal_status_witness :
    (terminalStore.updateRequestResponse "r1" "late" false 9).1 = Except.ok () ∧
    ((terminalStore.updateRequestResponse "r1" "late" false 9).2.getRequest "r1" =
      Except.ok { terminalReq with
                  response := "late", approved := false,
                  status := RequestStatus.completed, respondedAt := some 9 }) ∧
    (terminalStore.cancelRequest "r1").1 = Except.ok () ∧
    ((terminalStore.cancelRequest "r1").2.getRequest "r1" =
      Except.ok { terminalReq with status := RequestStatus.canceled }) :=
  updateAndCancel_ignore_terminal_status terminalStore "r1" "late" false 9
    terminalReq rfl

/-- C1 counterexample: on a request already `completed`, a `Complete`
attempt reports success (not `AlreadyTerminal`) and overwrites `response`,
`approved` and `responded_at`, and a `Cancel` attempt reports success and
overwrites `status` — refuting the claim that both fail and leave the
stored fields unchanged. -/
theorem terminal_request_mutated_counterexample :
    (terminalStore.updateRequestResponse "r1" "overwritten" false 9).1 =
      Except.ok () ∧
    ((terminalStore.updateRequestResponse "r1" "overwritten" false 9).2.getRequest
        "r1" =
      Except.ok { terminalReq with
                  response := "overwritten", approved := false,
                  status := RequestStatus.completed, respondedAt := some 9 }) ∧
    (terminalStore.cancelRequest "r1").1 = Except.ok () ∧
    ((terminalStore.cancelRequest "r1").2.getRequest "r1" =
      Except.ok { terminalReq with status := RequestStatus.canceled }) ∧
    ({ terminalReq with status := RequestStatus.canceled } ≠ terminalReq) := by
  refine ⟨rfl, rfl, rfl, rfl, by decide⟩

/-- C7 (amended): the in-memory directory resolves a client to the most
recently registered binding: a successful `RegisterSession` overwrites
`clientToTelegram[clientID]`, so `GetTelegramID` returns the telegram id
of the last registration, not of the oldest-created active session. -/
theorem getTelegramID_returns_last_registration (st st' : InMemoryStorageAdapter)
    (sid cid : String) (tid : Int) (now : Nat)
    (h : st.registerSession sid cid tid now = (Except.ok (), st')) :
    st'.getTelegramID cid = Except.ok tid := by
  unfold InMemoryStorageAdapter.registerSession at h
  cases hx : lookupA sid st.sessions with
  | some s => rw [hx] at h; cases h
  | none =>
      rw [hx] at h
      simp only [Prod.mk.injEq] at h
      rw [← h.2]
      unfold InMemoryStorageAdapter.getTelegramID
      simp [lookupA_insertA]

/-- Two active sessions registered for client `c`: fixture for the
resolution-order claim. -/
def twoBindingsStore : InMemoryStorageAdapter :=
  ((InMemoryStorageAdapter.empty.registerSession "s1" "c" 100 0).2.registerSession
    "s2" "c" 200 5).2

/-- C7 witness: after registering `s2` last, the client resolves to
`s2`'s telegram id. -/
theorem getTelegramID_returns_last_registration_witness :
    twoBindingsStore.getTelegramID "c" = Except.ok 200 :=
  getTelegramID_returns_last_registration
    (InMemoryStorageAdapter.empty.registerSession "s1" "c" 100 0).2
    twoBindingsStore "s2" "c" 200 5 rfl

/-- C7 counterexample: with two active bindings for client `c` (session
`s1` created at 0 with address 100, session `s2` created at 5 with
address 200), `GetTelegramID` returns 200 — the newest registration —
while the oldest-created active binding has address 100. -/
theorem resolve_not_oldest_counterexample :
    twoBindingsStore.getTelegramID "c" = Except.ok 200 ∧
    specOldestActiveTelegram twoBindingsStore "c" = some 100 ∧
    (200 : Int) ≠ 100 := by
  refine ⟨rfl, rfl, by decide⟩

/-- C8: deactivation is idempotent — if `DeactivateSession` succeeds once,
running it again succeeds and leaves the store exactly as after the first
call (the session stays deactivated). -/
theorem deactivateSession_idempotent (st st' : InMemoryStorageAdapter)
    (sid : String)
    (h : st.deactivateSession sid = (Except.ok (), st')) :
    st'.deactivateSession sid = (Except.ok (), st') := by
  unfold InMemoryStorageAdapter.deactivateSession at h ⊢
  cases hx : lookupA sid st.sessions with
  | none => rw [hx] at h; cases h
  | some session =>
      rw [hx] at h
      simp only [Prod.mk.injEq] at h
      have hst' := h.2
      have hsess : lookupA sid st'.sessions =
          some { session with active := false } := by
        rw [← hst']
        simp [lookupA_updateA, hx]
      have h1 : updateA sid (fun ss => { ss with active := false })
          st'.sessions = st'.sessions := by
        rw [← hst']
        exact (updateA_updateA sid _ _ st.sessions).trans rfl
      have h2 : deleteA session.clientId st'.clientToTelegram =
          st'.clientToTelegram := by
        rw [← hst']
        exact deleteA_deleteA session.clientId st.clientToTelegram
      rw [hsess]
      show (Except.ok (),
        { st' with
          sessions :=
            updateA sid (fun ss => { ss with active := false }) st'.sessions
          clientToTelegram := deleteA session.clientId st'.clientToTelegram }) =
        ((Except.ok () : Except String Unit), st')
      rw [h1, h2]

/-- A store with one active session, for the deactivation witness. -/
def oneSessionStore : InMemoryStorageAdapter :=
  (InMemoryStorageAdapter.empty.registerSession "s1" "c1" 42 0).2

/-- C8 witness: concrete double deactivation. -/
theorem deactivateSession_idempotent_witness :
    (oneSessionStore.deactivateSession "s1").2.deactivateSession "s1" =
      (Except.ok (), (oneSessionStore.deactivateSession "s1").2) :=
  deactivateSession_idempotent oneSessionStore
    (oneSessionStore.deactivateSession "s1").2 "s1" rfl

/-- The request `SubmitRequest` mints before storing: status pending,
default timeout 300. -/
def mintedRequest (input : SubmitInput) (newID : String) (now : Nat) :
    HITLRequest :=
  { id := newID, sessionId := input.sessionId, clientId := input.clientId
    message := input.message, options := input.options
    timeoutSeconds := if input.timeoutSeconds = 0 then 300 else input.timeoutSeconds
    status := RequestStatus.pending, response := "", approved := false
    createdAt := now, respondedAt := none }

/-- A store with one active session `s1` for client `c1`: fixture for the
submit-path claims. -/
def activeSessionStore : InMemoryStorageAdapter :=
  (InMemoryStorageAdapter.empty.registerSession "s1" "c1" 42 0).2

/-- A well-formed submit body against session `s1`. -/
def submitInput1 : SubmitInput :=
  { sessionId := "s1", clientId := "c1", message := "Deploy?"
    options := [], timeoutSeconds := 0 }

/-- C2 (amended): when the Telegram send fails, `SubmitRequest` answers
HTTP 500 and the newly created request remains stored with status
`pending` — it is never transitioned to `canceled`, and a subsequent
`Get(request_id)` returns it rather than NotFound. -/
theorem submit_transport_failure_leaves_pending
    (st : InMemoryStorageAdapter) (input : SubmitInput) (newID : String)
    (now : Nat) (session : Session)
    (hs : input.sessionId ≠ "") (hc : input.clientId ≠ "")
    (hm : input.message ≠ "")
    (hsess : st.getSession input.sessionId = Except.ok session)
    (hact : session.active = true)
    (hfresh : lookupA newID st.requests = none) :
    (submitRequest st input newID now false).1 =
      SubmitOutcome.internalError "Failed to send request to Telegram" ∧
    (submitRequest st input newID now false).2.getRequest newID =
      Except.ok (mintedRequest input newID now) := by
  unfold submitRequest
  rw [if_neg (by simp [hs, hc, hm])]
  rw [hsess]
  simp only [hact, not_true_eq_false, if_false, Bool.not_true]
  unfold InMemoryStorageAdapter.storeRequest InMemoryStorageAdapter.getRequest
  simp [mintedRequest, hfresh, lookupA_insertA]

/-- C2 witness: the amended behaviour at a concrete store and input. -/
theorem submit_transport_failure_leaves_pending_witness :
    (submitRequest activeSessionStore submitInput1 "r9" 10 false).1 =
      SubmitOutcome.internalError "Failed to send request to Telegram" ∧
    (submitRequest activeSessionStore submitInput1 "r9" 10 false).2.getRequest
        "r9" = Except.ok (mintedRequest submitInput1 "r9" 10) :=
  submit_transport_failure_leaves_pending activeSessionStore submitInput1 "r9"
    10 { id := "s1", clientId := "c1", telegramId := 42, active := true, createdAt := 0 }
    (by decide) (by decide) (by decide) rfl rfl rfl

/-- C2 counterexample: a Submit whose Telegram send fails answers 500, yet
`Get("r9")` finds the request and its status is `pending` — not
`canceled`, and not NotFound — refuting the claim. -/
theorem submit_error_dangling_pending_counterexample :
    httpStatusOf (submitRequest activeSessionStore submitInput1 "r9" 10 false).1
      = 500 ∧
    (submitRequest activeSessionStore submitInput1 "r9" 10 false).2.getRequest
        "r9" = Except.ok (mintedRequest submitInput1 "r9" 10) ∧
    (mintedRequest submitInput1 "r9" 10).status = RequestStatus.pending ∧
    RequestStatus.pending ≠ RequestStatus.canceled := by
  refine ⟨rfl, rfl, rfl, by decide⟩

/-- C6 (amended): Submit against an existing but inactive session answers
HTTP 400 `Session is not active` (not 409) and creates no request: the
store is unchanged, so a Get for the minted id still returns NotFound. -/
theorem submit_inactive_session_returns_400
    (st : InMemoryStorageAdapter) (input : SubmitInput) (newID : String)
    (now : Nat) (sendOk : Bool) (session : Session)
    (hs : input.sessionId ≠ "") (hc : input.clientId ≠ "")
    (hm : input.message ≠ "")
    (hsess : st.getSession input.sessionId = Except.ok session)
    (hinact : session.active = false) :
    submitRequest st input newID now sendOk =
      (SubmitOutcome.badRequest "Session is not active", st) ∧
    httpStatusOf (submitRequest st input newID now sendOk).1 = 400 ∧
    (lookupA newID st.requests = none →
      (submitRequest st input newID now sendOk).2.getRequest newID =
        Except.error "request not found") := by
  have hmain : submitRequest st input newID now sendOk =
      (SubmitOutcome.badRequest "Session is not active", st) := by
    unfold submitRequest
    rw [if_neg (by simp [hs, hc, hm])]
    rw [hsess]
    simp [hinact]
  refine ⟨hmain, by rw [hmain]; rfl, ?_⟩
  intro hfresh
  rw [hmain]
  unfold InMemoryStorageAdapter.getRequest
  rw [hfresh]

/-- A store whose only session `s1` has been deactivated. -/
def inactiveSessionStore : InMemoryStorageAdapter :=
  (activeSessionStore.deactivateSession "s1").2

/-- C6 witness: the amended behaviour at a concrete inactive session. -/
theorem submit_inactive_session_returns_400_witness :
    submitRequest inactiveSessionStore submitInput1 "r9" 10 true =
      (SubmitOutcome.badRequest "Session is not active", inactiveSessionStore) ∧
    httpStatusOf (submitRequest inactiveSessionStore submitInput1 "r9" 10 true).1
      = 400 ∧
    (lookupA "r9" inactiveSessionStore.requests = none →
      (submitRequest inactiveSessionStore submitInput1 "r9" 10 true).2.getRequest
        "r9" = Except.error "request not found") :=
  submit_inactive_session_returns_400 inactiveSessionStore submitInput1 "r9" 10
    true { id := "s1", clientId := "c1", telegramId := 42, active := false, createdAt := 0 }
    (by decide) (by decide) (by decide) rfl rfl

/-- C6 counterexample: the edge answers 400, not the claimed 409, on an
inactive session (no request is created, as the unchanged store shows). -/
theorem submit_inactive_not_409_counterexample :
    httpStatusOf (submitRequest inactiveSessionStore submitInput1 "r9" 10 true).1
      = 400 ∧
    (400 : Nat) ≠ 409 ∧
    (submitRequest inactiveSessionStore submitInput1 "r9" 10 true).2.getRequest
      "r9" = Except.error "request not found" := by
  refine ⟨rfl, by decide, rfl⟩

/-- A pending free-text request `r1`, fixture for the reply-approval
claims. -/
def pendingReq1 : HITLRequest :=
  { id := "r1", sessionId := "s1", clientId := "c1", message := "Provide context"
    options := [], timeoutSeconds := 300, status := RequestStatus.pending
    response := "", approved := false, createdAt := 0, respondedAt := none }

/-- A store holding exactly `pendingReq1`. -/
def pendingFreeTextStore : InMemoryStorageAdapter :=
  { sessions := [], requests := [("r1", pendingReq1)], clientToTelegram := [] }

/-- The quoted prompt text carrying the correlation token of `r1`. -/
def freeTextPrompt : String := "Request ID: \x60r1\x60"

/-- C3 (amended): a free-text reply delivered through `Bot.handleReply`
stores `approved = true` for every reply text: the handler passes the
literal `true` to `UpdateRequestResponse`; no approve-set is consulted on
this path. -/
theorem handleReply_stores_approved_true
    (st : InMemoryStorageAdapter) (replyToText text : String) (now : Nat)
    (rid : String) (req : HITLRequest)
    (hcontains : strContains replyToText "Request ID:" = true)
    (hex : extractRequestID replyToText = rid)
    (hne : rid ≠ "")
    (hreq : st.getRequest rid = Except.ok req) :
    (handleReply st replyToText text now).1 = ReplyOutcome.recorded ∧
    (handleReply st replyToText text now).2.getRequest rid =
      Except.ok { req with
                  response := text, approved := true
                  status := RequestStatus.completed, respondedAt := some now } := by
  have hl := getRequest_ok_lookup st rid req hreq
  unfold handleReply
  rw [hcontains, hex]
  simp only [Bool.not_true, if_neg hne, if_false, Bool.false_eq_true,
    not_false_eq_true, if_true]
  unfold InMemoryStorageAdapter.updateRequestResponse
    InMemoryStorageAdapter.getRequest
  rw [hl]
  simp [lookupA_updateA, hl]

/-- C3 witness: any reply text — here `"whatever"` — is stored approved. -/
theorem handleReply_stores_approved_true_witness :
    (handleReply pendingFreeTextStore freeTextPrompt "whatever" 8).1 =
      ReplyOutcome.recorded ∧
    (handleReply pendingFreeTextStore freeTextPrompt "whatever" 8).2.getRequest
        "r1" =
      Except.ok { pendingReq1 with
                  response := "whatever", approved := true
                  status := RequestStatus.completed, respondedAt := some 8 } :=
  handleReply_stores_approved_true pendingFreeTextStore freeTextPrompt
    "whatever" 8 "r1" pendingReq1 (by decide) (by decide) (by decide) rfl

/-- C3 counterexample: the reply `"no"` is outside the spec's approve-set,
so the claim requires `approved = false`; the code records
`approved = true`. -/
theorem freetext_no_approved_true_counterexample :
    specFreeTextApproved "no" = false ∧
    (handleReply pendingFreeTextStore freeTextPrompt "no" 7).1 =
      ReplyOutcome.recorded ∧
    (handleReply pendingFreeTextStore freeTextPrompt "no" 7).2.getRequest "r1" =
      Except.ok { pendingReq1 with
                  response := "no", approved := true
                  status := RequestStatus.completed, respondedAt := some 7 } := by
  refine ⟨by decide, rfl, rfl⟩

/-- A pending choice request `r2` whose second option is `"No"`. -/
def choiceReqNo : HITLRequest :=
  { id := "r2", sessionId := "s1", clientId := "c1", message := "Deploy?"
    options := ["Yes", "No"], timeoutSeconds := 300
    status := RequestStatus.pending, response := "", approved := false
    createdAt := 0, respondedAt := none }

/-- A store holding exactly `choiceReqNo`. -/
def choiceStoreNo : InMemoryStorageAdapter :=
  { sessions := [], requests := [("r2", choiceReqNo)], clientToTelegram := [] }

/-- C4 (amended): the stored approved flag of a choice selection is false
iff the selected option text lowercases to one of
{cancel, reject, deny} — `"no"` is not in the code's deny-set — and the
callback handler stores `approved = choiceApproved(options[i])` for every
in-range selection. -/
theorem choice_deny_set :
    (∀ o : String, choiceApproved o = false ↔
      (strToLower o = "cancel" ∨ strToLower o = "reject" ∨
        strToLower o = "deny")) ∧
    (∀ (st : InMemoryStorageAdapter) (rid : String) (idx : Int) (now : Nat)
      (req : HITLRequest) (sel : String),
      st.getRequest rid = Except.ok req →
      safeIndex req.options idx = some sel →
      (deliverCallback st rid idx now).1 =
        CallbackOutcome.recorded sel (choiceApproved sel) ∧
      (deliverCallback st rid idx now).2.getRequest rid =
        Except.ok { req with
                    response := sel, approved := choiceApproved sel
                    status := RequestStatus.completed, respondedAt := some now }) := by
  constructor
  · intro o
    constructor
    · intro h
      by_contra hc
      push_neg at hc
      obtain ⟨h1, h2, h3⟩ := hc
      simp [choiceApproved, h1, h2, h3] at h
    · intro h
      rcases h with h | h | h <;> simp [choiceApproved, h]
  · intro st rid idx now req sel hreq hsel
    have hsel' := hsel
    unfold safeIndex at hsel'
    split at hsel'
    case isTrue hb =>
      have hlt : ¬ idx ≥ (req.options.length : Int) := by omega
      have hl := getRequest_ok_lookup st rid req hreq
      unfold deliverCallback
      rw [hreq]
      unfold InMemoryStorageAdapter.updateRequestResponse
        InMemoryStorageAdapter.getRequest
      simp [hlt, hsel, hl, lookupA_updateA]
    case isFalse => cases hsel'

/-- C4 witness: selecting the in-range option 0 stores
`choiceApproved "Yes"`. -/
theorem choice_deny_set_witness :
    (deliverCallback choiceStoreNo "r2" 0 4).1 =
      CallbackOutcome.recorded "Yes" (choiceApproved "Yes") ∧
    (deliverCallback choiceStoreNo "r2" 0 4).2.getRequest "r2" =
      Except.ok { choiceReqNo with
                  response := "Yes", approved := choiceApproved "Yes"
                  status := RequestStatus.completed, respondedAt := some 4 } :=
  choice_deny_set.2 choiceStoreNo "r2" 0 4 choiceReqNo "Yes" rfl (by decide)

/-- C4 counterexample: selecting the option `"No"` (index 1) stores
`approved = true`, while the spec's deny-set {cancel, reject, deny, no}
requires `approved = false`. -/
theorem choice_no_approved_true_counterexample :
    (handleCallbackQuery choiceStoreNo "response:r2:1" 4).1 =
      CallbackOutcome.recorded "No" true ∧
    (handleCallbackQuery choiceStoreNo "response:r2:1" 4).2.getRequest "r2" =
      Except.ok { choiceReqNo with
                  response := "No", approved := true
                  status := RequestStatus.completed, respondedAt := some 4 } ∧
    specChoiceApproved "No" = false := by
  refine ⟨rfl, rfl, by decide⟩

/-- No stored request has status `timeout`. -/
def noTimeoutRequests (st : InMemoryStorageAdapter) : Prop :=
  ∀ p ∈ st.requests, p.2.status ≠ RequestStatus.timeout

theorem mem_deleteA_sub {α : Type} {p : String × α} {k : String}
    {m : List (String × α)} (h : p ∈ deleteA k m) : p ∈ m := by
  induction m with
  | nil => simp [deleteA] at h
  | cons hd tl ih =>
      obtain ⟨a, b⟩ := hd
      by_cases hk : a = k
      · simp only [deleteA, if_pos hk] at h
        exact List.mem_cons_of_mem _ (ih h)
      · simp only [deleteA, if_neg hk, List.mem_cons] at h
        rcases h with h | h
        · simp [h]
        · exact List.mem_cons_of_mem _ (ih h)

theorem mem_updateA_cases {α : Type} {p : String × α} {k : String}
    {f : α → α} {m : List (String × α)} (h : p ∈ updateA k f m) :
    p ∈ m ∨ ∃ q, q ∈ m ∧ p = (q.1, f q.2) := by
  induction m with
  | nil => simp [updateA] at h
  | cons hd tl ih =>
      obtain ⟨a, b⟩ := hd
      by_cases hk : a = k
      · simp only [updateA, if_pos hk, List.mem_cons] at h
        rcases h with h | h
        · exact Or.inr ⟨(a, b), by simp, by simp [h]⟩
        · rcases ih h with h' | ⟨q, hq, hpq⟩
          · exact Or.inl (List.mem_cons_of_mem _ h')
          · exact Or.inr ⟨q, List.mem_cons_of_mem _ hq, hpq⟩
      · simp only [updateA, if_neg hk, List.mem_cons] at h
        rcases h with h | h
        · exact Or.inl (by simp [h])
        · rcases ih h with h' | ⟨q, hq, hpq⟩
          · exact Or.inl (List.mem_cons_of_mem _ h')
          · exact Or.inr ⟨q, List.mem_cons_of_mem _ hq, hpq⟩

theorem lookupA_mem {α : Type} {k : String} {v : α} {m : List (String × α)}
    (h : lookupA k m = some v) : (k, v) ∈ m := by
  induction m with
  | nil => cases h
  | cons hd tl ih =>
      obtain ⟨a, b⟩ := hd
      by_cases hk : a = k
      · simp only [lookupA, if_pos hk, Option.some.injEq] at h
        simp [hk, h]
      · simp only [lookupA, if_neg hk] at h
        exact List.mem_cons_of_mem _ (ih h)

/-- One storage operation cannot give any request the status `timeout`:
the only statuses ever written are `completed` (Complete) and `canceled`
(Cancel). -/
theorem applyOp_noTimeout (st : InMemoryStorageAdapter) (op : StoreOp)
    (hst : noTimeoutRequests st)
    (hop : ∀ r, op = StoreOp.store r → r.status ≠ RequestStatus.timeout) :
    noTimeoutRequests (applyOp st op) := by
  cases op with
  | register sid cid tid now =>
      intro p hp
      apply hst
      simp only [applyOp] at hp
      unfold InMemoryStorageAdapter.registerSession at hp
      cases hx : lookupA sid st.sessions <;> rw [hx] at hp <;> exact hp
  | deactivate sid =>
      intro p hp
      apply hst
      simp only [applyOp] at hp
      unfold InMemoryStorageAdapter.deactivateSession at hp
      cases hx : lookupA sid st.sessions <;> rw [hx] at hp <;> exact hp
  | store r =>
      intro p hp
      simp only [applyOp] at hp
      unfold InMemoryStorageAdapter.storeRequest at hp
      cases hx : lookupA r.id st.requests with
      | some _ => rw [hx] at hp; exact hst p hp
      | none =>
          rw [hx] at hp
          simp only [insertA, List.mem_cons] at hp
          rcases hp with h | h
          · rw [h]; exact hop r rfl
          · exact hst p (mem_deleteA_sub h)
  | update rid resp app now =>
      intro p hp
      simp only [applyOp] at hp
      unfold InMemoryStorageAdapter.updateRequestResponse at hp
      cases hx : lookupA rid st.requests with
      | none => rw [hx] at hp; exact hst p hp
      | some r =>
          rw [hx] at hp
          rcases mem_updateA_cases hp with h | ⟨q, hq, hpq⟩
          · exact hst p h
          · rw [hpq]; simp
  | cancel rid =>
      intro p hp
      simp only [applyOp] at hp
      unfold InMemoryStorageAdapter.cancelRequest at hp
      cases hx : lookupA rid st.requests with
      | none => rw [hx] at hp; exact hst p hp
      | some r =>
          rw [hx] at hp
          rcases mem_updateA_cases hp with h | ⟨q, hq, hpq⟩
          · exact hst p h
          · rw [hpq]; simp

/-- No sequence of storage operations (that does not itself insert a
request already carrying status `timeout`) can produce a stored request
with status `timeout`. -/
theorem applyOps_noTimeout (ops : List StoreOp) :
    ∀ st : InMemoryStorageAdapter, noTimeoutRequests st →
    (∀ op ∈ ops, ∀ r, op = StoreOp.store r → r.status ≠ RequestStatus.timeout) →
    noTimeoutRequests (applyOps st ops) := by
  induction ops with
  | nil => intro st hst _; simpa [applyOps] using hst
  | cons op rest ih =>
      intro st hst hops
      have h1 := applyOp_noTimeout st op hst
        (fun r hr => hops op (List.mem_cons_self op rest) r hr)
      have h2 : ∀ o ∈ rest, ∀ r, o = StoreOp.store r →
          r.status ≠ RequestStatus.timeout :=
        fun o ho => hops o (List.mem_cons_of_mem op ho)
      simpa [applyOps, List.foldl_cons] using ih (applyOp st op) h1 h2

/-- C5 (amended): no storage operation ever transitions a request to
status `timeout` — the adapter writes only `completed` and `canceled` —
so a pending request that receives no reply stays `pending` forever and
`Poll` after `created_at + timeout_seconds` still reports the stored
(non-timeout) status.  The router cleanup loop is irrelevant to this:
`cleanupTick` acts only on the in-memory channel map and takes no storage
state at all. -/
theorem poll_never_reports_timeout (ops : List StoreOp)
    (st : InMemoryStorageAdapter) (rid : String) (req : HITLRequest)
    (hst : noTimeoutRequests st)
    (hops : ∀ op ∈ ops, ∀ r, op = StoreOp.store r →
      r.status ≠ RequestStatus.timeout)
    (hget : (applyOps st ops).getRequest rid = Except.ok req) :
    req.status ≠ RequestStatus.timeout ∧
    (∀ resp, pollRequest (applyOps st ops) rid = PollOutcome.ok resp →
      resp.status = req.status) := by
  have hinv := applyOps_noTimeout ops st hst hops
  refine ⟨hinv (rid, req) (lookupA_mem (getRequest_ok_lookup _ rid req hget)), ?_⟩
  intro resp h
  unfold pollRequest at h
  rw [hget] at h
  cases h
  rfl

/-- C5 witness: after canceling the pending request `r1`, its status is
`canceled`, not `timeout`. -/
theorem poll_never_reports_timeout_witness :
    ({ pendingReq1 with status := RequestStatus.canceled } : HITLRequest).status
      ≠ RequestStatus.timeout :=
  (poll_never_reports_timeout [StoreOp.cancel "r1"] pendingFreeTextStore "r1"
    { pendingReq1 with status := RequestStatus.canceled }
    (by
      intro p hp
      simp only [pendingFreeTextStore, List.mem_singleton] at hp
      rw [hp]; decide)
    (fun op hop r hr => by
      simp only [List.mem_singleton] at hop
      rw [hop] at hr
      cases hr)
    rfl).1

/-- A pending request whose `timeout_seconds` is 1, created at time 0. -/
def timeoutCandidateReq : HITLRequest :=
  { pendingReq1 with id := "t1", timeoutSeconds := 1 }

/-- A store holding exactly `timeoutCandidateReq`. -/
def timeoutCandidateStore : InMemoryStorageAdapter :=
  { sessions := [], requests := [("t1", timeoutCandidateReq)]
    clientToTelegram := [] }

/-- The router channel map holding the matching pending entry, with the
fixed 5-minute deadline recorded at routing time 0. -/
def timeoutRouter : RouterState :=
  { pendingRequests :=
      [("t1", { request := timeoutCandidateReq, timeoutAt := routeDeadline 0 })] }

/-- C5 counterexample: at time 1000 — far past
`created_at + timeout_seconds = 1` — the cleanup loop has removed the
in-memory entry (its fixed 5-minute deadline passed), yet a Poll of the
stored request still returns status `pending`, not the claimed
`timeout`. -/
theorem poll_after_deadline_still_pending_counterexample :
    (1000 : Nat) >
      timeoutCandidateReq.createdAt + timeoutCandidateReq.timeoutSeconds ∧
    (cleanupTick 1000 timeoutRouter).pendingRequests = [] ∧
    pollRequest timeoutCandidateStore "t1" =
      PollOutcome.ok
        { requestId := "t1", status := RequestStatus.pending
          response := "", approved := false, completed := false } ∧
    RequestStatus.pending ≠ RequestStatus.timeout := by
  refine ⟨by decide, rfl, rfl, by decide⟩

/-- C9: the MCP dispatcher's error codes — a malformed envelope yields
−32700, an unrecognized method yields −32601, and a `tools/call` whose
`params` is not a JSON object yields −32602. -/
theorem mcp_error_codes :
    (Protocol.handleRequest none =
      MCPResp.failure Json.null ⟨-32700, "Parse error"⟩) ∧
    (∀ req : MCPReq,
      req.method ≠ "initialize" → req.method ≠ "tools/list" →
      req.method ≠ "tools/call" →
      Protocol.handleRequest (some req) =
        MCPResp.failure req.id ⟨-32601, "Method not found"⟩) ∧
    (∀ req : MCPReq, req.method = "tools/call" → req.params.asObj = none →
      Protocol.handleRequest (some req) =
        MCPResp.failure req.id ⟨-32602, "Invalid params"⟩) := by
  refine ⟨rfl, ?_, ?_⟩
  · intro req h1 h2 h3
    unfold Protocol.handleRequest
    split <;> simp_all
  · intro req h1 h2
    have hcall : Protocol.handleRequest (some req) =
        Protocol.handleToolsCall req := by
      unfold Protocol.handleRequest
      split <;> simp_all
    rw [hcall]
    unfold Protocol.handleToolsCall
    rw [h2]

/-- C9 witness: the three error codes at concrete envelopes. -/
theorem mcp_error_codes_witness :
    Protocol.handleRequest none =
      MCPResp.failure Json.null ⟨-32700, "Parse error"⟩ ∧
    Protocol.handleRequest (some ⟨"bogus/method", Json.null, Json.number 1⟩) =
      MCPResp.failure (Json.number 1) ⟨-32601, "Method not found"⟩ ∧
    Protocol.handleRequest (some ⟨"tools/call", Json.str "nope", Json.number 2⟩) =
      MCPResp.failure (Json.number 2) ⟨-32602, "Invalid params"⟩ :=
  ⟨mcp_error_codes.1,
   mcp_error_codes.2.1 ⟨"bogus/method", Json.null, Json.number 1⟩
     (by decide) (by decide) (by decide),
   mcp_error_codes.2.2 ⟨"tools/call", Json.str "nope", Json.number 2⟩ rfl rfl⟩

/-- A pending request with a single option, target of the negative-index
callback. -/
def negIdxReq : HITLRequest :=
  { pendingReq1 with id := "rX", options := ["Deploy"] }

/-- A store holding exactly `negIdxReq`. -/
def negIdxStore : InMemoryStorageAdapter :=
  { sessions := [], requests := [("rX", negIdxReq)], clientToTelegram := [] }

/-- C10: the callback payload `response:rX:-1` parses to index −1, which
passes the handler's only bounds check (`optionIndex >= len(Options)` is
false for −1) and reaches the expression `request.Options[optionIndex]`,
an out-of-bounds access (a runtime panic in Go) — refuting the claim that
every out-of-range parsed index is rejected before the access.  The store
is left unmutated. -/
theorem callback_negative_index_reaches_access :
    parseCallbackData "response:rX:-1" = some ("rX", -1) ∧
    ¬ ((-1 : Int) ≥ (negIdxReq.options.length : Int)) ∧
    handleCallbackQuery negIdxStore "response:rX:-1" 3 =
      (CallbackOutcome.outOfBounds (-1), negIdxStore) := by
  refine ⟨rfl, by decide, rfl⟩

end Loopgate

